import Mathlib

/-!
Verification of the Calculator-CLA history/undo-redo engine against its
natural-language specification.

The embedding follows `app/calculator.py`, `app/calculation.py` and
`app/operations.py`.  Python `Decimal` values are modelled by `ℚ`
(arbitrary-precision decimal arithmetic; the spec declares numeric-precision
library internals a non-goal, and the binary floating-point detour taken by
`power`/`root` is the spec's documented precision boundary).  Timestamps are
modelled by `ℤ` (a microsecond instant; the ISO-8601 codec of `datetime` is
exact at that precision).  Stateful methods become state-passing functions; a
Python `raise` becomes an `Except.error` result carrying the unchanged state.
-/

/-- Error taxonomy from `app/exceptions.py` (the two kinds raised on the
paths embedded here). -/
inductive CalcError where
  | OperationError (msg : String)
  | ValidationError (msg : String)
deriving DecidableEq, Repr

/-- The ten operation strategies of `app/operations.py`, one constructor per
concrete `Operation` subclass. -/
inductive OperationKind where
  | addition
  | subtraction
  | multiplication
  | division
  | power
  | root
  | modulus
  | integerDivision
  | percentageCalculation
  | absoluteDifference
deriving DecidableEq, Repr

/-- Truncation toward zero, as used by `Decimal` integer division. -/
def decTrunc (q : ℚ) : ℤ :=
  if 0 ≤ q then ⌊q⌋ else ⌈q⌉

/-- Models `Decimal.__floordiv__`: the integer part of the true division,
truncated toward zero. -/
def decFloorDiv (a b : ℚ) : ℚ :=
  ((decTrunc (a / b) : ℤ) : ℚ)

/-- Models `Decimal.__mod__`: the remainder satisfying
`a = (a // b) * b + a % b`, with the sign of the dividend. -/
def decMod (a b : ℚ) : ℚ :=
  a - b * decFloorDiv a b

/-- Models `Decimal(pow(float(operand1), float(operand2)))` from
`Power.execute`.  The float detour is the spec's documented precision
boundary; the model is exact for integer exponents and fixes a deterministic
value on the fractional case (no claim depends on that value). -/
def floatPow (a b : ℚ) : ℚ :=
  if b.den = 1 then a ^ b.num.toNat else 0

/-- Models `Decimal(pow(float(x), 1 / float(operand2)))` from `Root.execute`
(the magnitude of the root).  The float detour is the spec's documented
precision boundary; the model is exact for degree 1 and fixes a deterministic
value otherwise (no claim depends on that value). -/
def floatRootMagnitude (a b : ℚ) : ℚ :=
  if b = 1 then a else 0

/-- Embeds `OperationFactory.create_operation`: maps the short lowercase
command string to a strategy, failing with `OperationError` when the name is
not registered (`app/operations.py`, `_operations` table). -/
def OperationFactory.create_operation (operation_name : String) :
    Except CalcError OperationKind :=
  if operation_name = "add" then .ok .addition
  else if operation_name = "subtract" then .ok .subtraction
  else if operation_name = "multiply" then .ok .multiplication
  else if operation_name = "divide" then .ok .division
  else if operation_name = "power" then .ok .power
  else if operation_name = "root" then .ok .root
  else if operation_name = "modulus" then .ok .modulus
  else if operation_name = "int_divide" then .ok .integerDivision
  else if operation_name = "percent" then .ok .percentageCalculation
  else if operation_name = "abs_diff" then .ok .absoluteDifference
  else .error (.OperationError "Unknown operation")

/-- Embeds the `execute` method of each `Operation` subclass in
`app/operations.py`, including every domain check, in source order.
`operand2 % 2 == 0` in `Root.execute` is translated via `decMod`. -/
def Operation.execute (k : OperationKind) (operand1 operand2 : ℚ) :
    Except CalcError ℚ :=
  match k with
  | .addition => .ok (operand1 + operand2)
  | .subtraction => .ok (operand1 - operand2)
  | .multiplication => .ok (operand1 * operand2)
  | .division =>
      if operand2 = 0 then .error (.OperationError "Division by zero is not allowed")
      else .ok (operand1 / operand2)
  | .power =>
      if operand2 < 0 then .error (.OperationError "Negative exponents are not supported")
      else .ok (floatPow operand1 operand2)
  | .root =>
      if operand2 = 0 then .error (.OperationError "Zero root is undefined")
      else if operand1 < 0 ∧ decMod operand2 2 = 0 then
        .error (.OperationError "Cannot calculate even root of a negative number")
      else if operand1 < 0 ∧ decMod operand2 2 ≠ 0 then
        .ok (-(floatRootMagnitude |operand1| operand2))
      else .ok (floatRootMagnitude operand1 operand2)
  | .modulus =>
      if operand2 = 0 then .error (.OperationError "Modulo by zero is not allowed")
      else .ok (decMod operand1 operand2)
  | .integerDivision =>
      if operand2 = 0 then .error (.OperationError "Integer division by zero is not allowed")
      else .ok (decFloorDiv operand1 operand2)
  | .percentageCalculation =>
      if operand2 = 0 then .error (.OperationError "Cannot calculate percentage with zero as the base")
      else .ok (operand1 / operand2 * 100)
  | .absoluteDifference => .ok |operand1 - operand2|

/-- The `Calculation` dataclass of `app/calculation.py`.  The derived
`_operation_instance` field is a pure function of `operation_name` and is
not stored separately. -/
structure Calculation where
  operation_name : String
  operand1 : ℚ
  operand2 : ℚ
  result : ℚ
  timestamp : ℤ
deriving DecidableEq, Repr

/-- Embeds construction of a `Calculation` (`__init__` plus `__post_init__`):
look the strategy up by name, compute `result := calculate()`, and fail with
the underlying error when the name is unknown or the operands violate the
operation's domain. -/
def Calculation.make (operation_name : String) (operand1 operand2 : ℚ)
    (timestamp : ℤ) : Except CalcError Calculation :=
  match OperationFactory.create_operation operation_name with
  | .error e => .error e
  | .ok k =>
      match Operation.execute k operand1 operand2 with
      | .error e => .error e
      | .ok r => .ok ⟨operation_name, operand1, operand2, r, timestamp⟩

/-- The serialized record shape of `Calculation.to_dict`
(`operation, operand1, operand2, result, timestamp`).  The decimal-to-string
and `datetime.isoformat` codecs are exact library capabilities (spec non-goal),
so each string field is modelled by the value it denotes. -/
structure CalcDict where
  operation : String
  operand1 : ℚ
  operand2 : ℚ
  result : ℚ
  timestamp : ℤ
deriving DecidableEq, Repr

/-- Embeds `Calculation.to_dict`. -/
def Calculation.to_dict (c : Calculation) : CalcDict :=
  ⟨c.operation_name, c.operand1, c.operand2, c.result, c.timestamp⟩

/-- Embeds `Calculation.from_dict`: rebuilds the record through the
constructor (recomputing `result`), then overwrites the timestamp with the
deserialized one; a mismatch between the saved and recomputed result only
logs a warning and keeps the recomputed value.  Errors raised by the
constructor propagate. -/
def Calculation.from_dict (d : CalcDict) : Except CalcError Calculation :=
  Calculation.make d.operation d.operand1 d.operand2 d.timestamp

/-- Modelled from the spec: the single-argument snapshot `CalculatorMemento`
used throughout `app/calculator.py` (`CalculatorMemento(self.history.copy())`,
`memento.history`) is one of the repository's superseded-draft casualties and
is not among the source files (the draft in `app/calculator_memento.py` has a
different two-argument interface).  Spec section 3: a Snapshot is an
independently-owned copy of the History Store entries. -/
structure CalculatorMemento where
  history : List Calculation
deriving DecidableEq, Repr

/-- The mutable state of a `Calculator` session (`Calculator.__init__`).
Observers are identified by a numeral; `notifications` is the trace of
`observer.update(calculation)` calls made so far, recorded so that
notification claims are statable. -/
structure CalculatorState where
  history : List Calculation
  operation_strategy : Option OperationKind
  last_command_name : Option String
  observers : List ℕ
  undo_stack : List CalculatorMemento
  redo_stack : List CalculatorMemento
  max_history_size : ℕ
  max_input_value : ℚ
  notifications : List (ℕ × Calculation)
deriving DecidableEq, Repr

/-- A freshly constructed session with no history file: empty history, no
pending strategy, no observers, empty stacks, empty notification trace. -/
def Calculator.initState (max_history_size : ℕ) (max_input_value : ℚ) :
    CalculatorState :=
  ⟨[], none, none, [], [], [], max_history_size, max_input_value, []⟩

/-- Modelled from the spec: `InputValidator.validate_number` is imported by
`app/calculator.py` but absent from the source files (only the free-function
draft in `app/input_validators.py` remains).  Spec section 4.5 step 2: fails
with `ValidationError` if the raw input is not numeric, or if the absolute
value exceeds the configured maximum.  A raw input is modelled as `none`
(unparseable) or `some v`. -/
def InputValidator.validate_number (value : Option ℚ) (max_input_value : ℚ) :
    Except CalcError ℚ :=
  match value with
  | none => .error (.ValidationError "Invalid number input")
  | some v =>
      if |v| > max_input_value then
        .error (.ValidationError "Input exceeds maximum allowed value")
      else .ok v

/-- Embeds `Calculator.add_observer`: append only when not already
registered. -/
def Calculator.add_observer (s : CalculatorState) (observer : ℕ) :
    CalculatorState :=
  if observer ∈ s.observers then s
  else { s with observers := s.observers ++ [observer] }

/-- Embeds `Calculator.notify_observers` as the list of `update` calls it
performs: one per registered observer, in registration order. -/
def Calculator.notify_observers (s : CalculatorState) (calculation : Calculation) :
    List (ℕ × Calculation) :=
  s.observers.map (fun observer => (observer, calculation))

/-- Embeds `Calculator.set_operation`: create the strategy via the factory
(the error propagates, leaving state unchanged) and remember the command
name. -/
def Calculator.set_operation (s : CalculatorState) (command_name : String) :
    Except CalcError CalculatorState :=
  match OperationFactory.create_operation command_name with
  | .error e => .error e
  | .ok k =>
      .ok { s with operation_strategy := some k,
                   last_command_name := some command_name }

/-- The success-path mutations of `Calculator.perform_operation`
(lines 160 to 167): push a memento of the pre-operation history, clear the
redo stack, append the new calculation, evict the oldest entry if the bound
is exceeded, and notify the observers. -/
def Calculator.commit (s : CalculatorState) (calculation : Calculation) :
    CalculatorState :=
  let history := s.history ++ [calculation]
  let history := if history.length > s.max_history_size then history.tail else history
  { s with
    undo_stack := s.undo_stack ++ [CalculatorMemento.mk s.history],
    redo_stack := [],
    history := history,
    notifications := s.notifications ++ Calculator.notify_observers s calculation }

/-- Embeds `Calculator.perform_operation` (lines 136 to 179): require a
pending strategy, validate both operands, execute the strategy, build the
`Calculation` from the stored command name, then commit.  Each raising step
returns the error together with the state exactly as it was at the raise
point. -/
def Calculator.perform_operation (s : CalculatorState) (a b : Option ℚ)
    (now : ℤ) : Except CalcError ℚ × CalculatorState :=
  match s.operation_strategy, s.last_command_name with
  | some strat, some cmd =>
      (match InputValidator.validate_number a s.max_input_value with
       | .error e => (.error e, s)
       | .ok validated_a =>
         match InputValidator.validate_number b s.max_input_value with
         | .error e => (.error e, s)
         | .ok validated_b =>
           match Operation.execute strat validated_a validated_b with
           | .error e => (.error e, s)
           | .ok result =>
             match Calculation.make cmd validated_a validated_b now with
             | .error e => (.error e, s)
             | .ok calculation => (.ok result, Calculator.commit s calculation))
  | _, _ => (.error (.OperationError "No operation set. Please select an operation first."), s)

/-- Embeds `Calculator.undo` (lines 255 to 269): on an empty undo stack,
return `False` with the state untouched; otherwise push a memento of the
current history onto the redo stack, pop the undo stack and restore the
history from the popped memento. -/
def Calculator.undo (s : CalculatorState) : Bool × CalculatorState :=
  match s.undo_stack.getLast? with
  | none => (false, s)
  | some memento =>
      (true, { s with
        redo_stack := s.redo_stack ++ [CalculatorMemento.mk s.history],
        undo_stack := s.undo_stack.dropLast,
        history := memento.history })

/-- Embeds `Calculator.redo` (lines 271 to 285): on an empty redo stack,
return `False` with the state untouched; otherwise push a memento of the
current history onto the undo stack, pop the redo stack and restore the
history from the popped memento. -/
def Calculator.redo (s : CalculatorState) : Bool × CalculatorState :=
  match s.redo_stack.getLast? with
  | none => (false, s)
  | some memento =>
      (true, { s with
        undo_stack := s.undo_stack ++ [CalculatorMemento.mk s.history],
        redo_stack := s.redo_stack.dropLast,
        history := memento.history })

/-- Embeds `Calculator.clear_history` (lines 246 to 253): clear the history
and both stacks.  Nothing else happens: no fresh baseline snapshot is pushed
and no observer is notified. -/
def Calculator.clear_history (s : CalculatorState) : CalculatorState :=
  { s with history := [], undo_stack := [], redo_stack := [] }

/-- Embeds `Calculator.load_history` (lines 203 to 231), with the CSV file
abstracted to its parsed record list: `none` means no history file exists,
`some records` the parsed rows.  A non-empty file replaces the history and
re-seeds the undo stack with a single baseline memento of the loaded state;
otherwise everything is emptied. -/
def Calculator.load_history (s : CalculatorState)
    (file : Option (List Calculation)) : CalculatorState :=
  match file with
  | some records =>
      if records ≠ [] then
        { s with history := records,
                 undo_stack := [CalculatorMemento.mk records],
                 redo_stack := [] }
      else { s with history := [], undo_stack := [], redo_stack := [] }
  | none => { s with history := [], undo_stack := [], redo_stack := [] }

/-- One front-end step: select an operation, then perform it on two raw
inputs (a failed selection leaves the state unchanged and skips the
calculation, exactly as the propagated exception would). -/
structure OpCall where
  cmd : String
  a : Option ℚ
  b : Option ℚ
  now : ℤ

/-- Runs one `OpCall` against a session state. -/
def Calculator.runCall (s : CalculatorState) (c : OpCall) : CalculatorState :=
  match Calculator.set_operation s c.cmd with
  | .error _ => s
  | .ok s1 => (Calculator.perform_operation s1 c.a c.b c.now).2

/-- Runs a sequence of `OpCall`s in order. -/
def Calculator.runCalls (s : CalculatorState) (calls : List OpCall) :
    CalculatorState :=
  calls.foldl Calculator.runCall s

/-- Decidable equality for `Except` results, so that concrete runs can be
checked by `decide`. -/
instance {ε α : Type} [DecidableEq ε] [DecidableEq α] :
    DecidableEq (Except ε α) := fun x y =>
  match x, y with
  | .ok a, .ok b =>
      if h : a = b then isTrue (by rw [h]) else isFalse (by simp [h])
  | .error a, .error b =>
      if h : a = b then isTrue (by rw [h]) else isFalse (by simp [h])
  | .ok _, .error _ => isFalse (by simp)
  | .error _, .ok _ => isFalse (by simp)

/-- Every run of `perform_operation` either raises, returning the state
unchanged, or succeeds, returning the committed state of some freshly built
calculation. -/
theorem perform_operation_cases (s : CalculatorState) (a b : Option ℚ)
    (now : ℤ) :
    (∃ e, Calculator.perform_operation s a b now = (.error e, s)) ∨
    (∃ r c, Calculator.perform_operation s a b now =
      (.ok r, Calculator.commit s c)) := by
  unfold Calculator.perform_operation
  repeat' split
  all_goals first
    | exact Or.inl ⟨_, rfl⟩
    | exact Or.inr ⟨_, _, rfl⟩

/-- On a raising run, the state component is untouched. -/
theorem perform_operation_snd_of_error (s : CalculatorState) (a b : Option ℚ)
    (now : ℤ) (e : CalcError)
    (h : (Calculator.perform_operation s a b now).1 = .error e) :
    (Calculator.perform_operation s a b now).2 = s := by
  rcases perform_operation_cases s a b now with ⟨e2, he⟩ | ⟨r, c, hc⟩
  · rw [he]
  · rw [hc] at h
    simp at h

/-- On a successful run, the state component is a commit of some
calculation. -/
theorem perform_operation_snd_of_ok (s : CalculatorState) (a b : Option ℚ)
    (now : ℤ) (r : ℚ)
    (h : (Calculator.perform_operation s a b now).1 = .ok r) :
    ∃ c, (Calculator.perform_operation s a b now).2 = Calculator.commit s c := by
  rcases perform_operation_cases s a b now with ⟨e, he⟩ | ⟨r2, c, hc⟩
  · rw [he] at h
    simp at h
  · exact ⟨c, by rw [hc]⟩

/-- An empty undo stack makes `undo` a `False`-returning no-op. -/
theorem undo_of_empty (s : CalculatorState) (h : s.undo_stack = []) :
    Calculator.undo s = (false, s) := by
  unfold Calculator.undo
  rw [h]
  rfl

/-- An empty redo stack makes `redo` a `False`-returning no-op. -/
theorem redo_of_empty (s : CalculatorState) (h : s.redo_stack = []) :
    Calculator.redo s = (false, s) := by
  unfold Calculator.redo
  rw [h]
  rfl

/-- A successful `set_operation` only replaces the pending strategy and the
stored command name. -/
theorem set_operation_ok_shape (s s1 : CalculatorState) (command_name : String)
    (h : Calculator.set_operation s command_name = .ok s1) :
    ∃ k, s1 = { s with operation_strategy := some k,
                       last_command_name := some command_name } := by
  unfold Calculator.set_operation at h
  cases hco : OperationFactory.create_operation command_name with
  | error e => rw [hco] at h; simp at h
  | ok k =>
      rw [hco] at h
      simp at h
      exact ⟨k, h.symm⟩

/-- One front-end step keeps the redo stack empty: a new successful
operation clears it and every failing path leaves it untouched. -/
theorem runCall_redo_empty (s : CalculatorState) (c : OpCall)
    (h : s.redo_stack = []) : (Calculator.runCall s c).redo_stack = [] := by
  unfold Calculator.runCall
  cases hset : Calculator.set_operation s c.cmd with
  | error e => exact h
  | ok s1 =>
      obtain ⟨k, hk⟩ := set_operation_ok_shape s s1 c.cmd hset
      show (Calculator.perform_operation s1 c.a c.b c.now).2.redo_stack = []
      rcases perform_operation_cases s1 c.a c.b c.now with ⟨e, he⟩ | ⟨r, cc, hc⟩
      · rw [he]
        rw [hk]
        exact h
      · rw [hc]
        simp [Calculator.commit]

/-- A sequence of front-end steps started with an empty redo stack ends with
an empty redo stack. -/
theorem runCalls_redo_empty (calls : List OpCall) :
    ∀ s : CalculatorState, s.redo_stack = [] →
      (Calculator.runCalls s calls).redo_stack = [] := by
  induction calls with
  | nil => intro s h; exact h
  | cons c cs ih =>
      intro s h
      have : Calculator.runCalls s (c :: cs) =
          Calculator.runCalls (Calculator.runCall s c) cs := rfl
      rw [this]
      exact ih _ (runCall_redo_empty s c h)

/-- From any state with an empty redo stack, `undo` followed by `redo`
restores the history exactly. -/
theorem undo_then_redo_history (s : CalculatorState) (h : s.redo_stack = []) :
    ((Calculator.redo (Calculator.undo s).2).2).history = s.history := by
  rcases List.eq_nil_or_concat' s.undo_stack with hu | ⟨l, m, hu⟩
  · rw [undo_of_empty s hu]
    rw [redo_of_empty s h]
  · unfold Calculator.undo
    rw [hu, List.getLast?_concat]
    unfold Calculator.redo
    simp [h]

/-- A session with the divide strategy pending and no history. -/
def sampleDivideState : CalculatorState :=
  ⟨[], some .division, some "divide", [], [], [], 5, 1000, []⟩

/-- A session with the add strategy pending and no history. -/
def sampleAddState : CalculatorState :=
  ⟨[], some .addition, some "add", [], [], [], 5, 1000, []⟩

/-- C1: Atomicity on failure — whenever `perform_operation` raises (numeric
or range validation fails, or the selected operation's domain validation
fails, e.g. divide with divisor 0), the history contents, the undo-stack
depth, the redo-stack depth and the observer list are exactly as before the
call, and no observer is notified (the notification trace is unchanged). -/
theorem spec_C1_atomicity_on_failure (s : CalculatorState) (a b : Option ℚ)
    (now : ℤ) (e : CalcError)
    (h : (Calculator.perform_operation s a b now).1 = .error e) :
    (Calculator.perform_operation s a b now).2.history = s.history ∧
    (Calculator.perform_operation s a b now).2.undo_stack.length =
      s.undo_stack.length ∧
    (Calculator.perform_operation s a b now).2.redo_stack.length =
      s.redo_stack.length ∧
    (Calculator.perform_operation s a b now).2.observers = s.observers ∧
    (Calculator.perform_operation s a b now).2.notifications =
      s.notifications := by
  have h2 := perform_operation_snd_of_error s a b now e h
  rw [h2]
  exact ⟨rfl, rfl, rfl, rfl, rfl⟩

/-- Witness for C1 at `performOperation("divide", 5, 0)`. -/
theorem spec_C1_witness :
    (Calculator.perform_operation sampleDivideState (some 5) (some 0) 0).1 =
      Except.error (CalcError.OperationError "Division by zero is not allowed") ∧
    (Calculator.perform_operation sampleDivideState (some 5) (some 0) 0).2.history =
      sampleDivideState.history ∧
    (Calculator.perform_operation sampleDivideState (some 5) (some 0) 0).2.undo_stack.length =
      sampleDivideState.undo_stack.length ∧
    (Calculator.perform_operation sampleDivideState (some 5) (some 0) 0).2.redo_stack.length =
      sampleDivideState.redo_stack.length ∧
    (Calculator.perform_operation sampleDivideState (some 5) (some 0) 0).2.observers =
      sampleDivideState.observers ∧
    (Calculator.perform_operation sampleDivideState (some 5) (some 0) 0).2.notifications =
      sampleDivideState.notifications :=
  ⟨by decide,
   spec_C1_atomicity_on_failure sampleDivideState (some 5) (some 0) 0
     (CalcError.OperationError "Division by zero is not allowed") (by decide)⟩

/-- C3: Undo/redo inverse law — after any sequence of `performOperation`
calls from an empty session, `undo()` followed immediately by `redo()`
leaves the history with exactly the same records in the same order. -/
theorem spec_C3_undo_redo_inverse (maxS : ℕ) (maxI : ℚ) (calls : List OpCall) :
    ((Calculator.redo
        (Calculator.undo (Calculator.runCalls (Calculator.initState maxS maxI) calls)).2).2).history =
      (Calculator.runCalls (Calculator.initState maxS maxI) calls).history :=
  undo_then_redo_history _ (runCalls_redo_empty calls _ rfl)

/-- Counterexample to C4 as stated: on an empty undo (resp. redo) stack,
`undo()` (resp. `redo()`) does not raise any error at all — it returns the
value `False` with the session state untouched (no `NothingToUndoError` or
`NothingToRedoError` exists anywhere on these paths). -/
theorem spec_C4_counterexample :
    Calculator.undo (Calculator.initState 5 1000) =
      (false, Calculator.initState 5 1000) ∧
    Calculator.redo (Calculator.initState 5 1000) =
      (false, Calculator.initState 5 1000) :=
  ⟨rfl, rfl⟩

/-- C4 (amended): whenever the undo stack is empty, `undo()` returns `False`
without raising, leaving all session state unchanged; whenever the redo
stack is empty, `redo()` returns `False` without raising, leaving all
session state unchanged. -/
theorem spec_C4_empty_stack_noop (s : CalculatorState) :
    (s.undo_stack = [] → Calculator.undo s = (false, s)) ∧
    (s.redo_stack = [] → Calculator.redo s = (false, s)) :=
  ⟨undo_of_empty s, redo_of_empty s⟩

/-- Witness for the amended C4 at a fresh session. -/
theorem spec_C4_witness :
    Calculator.undo (Calculator.initState 3 10) =
      (false, Calculator.initState 3 10) ∧
    Calculator.redo (Calculator.initState 3 10) =
      (false, Calculator.initState 3 10) :=
  ⟨(spec_C4_empty_stack_noop (Calculator.initState 3 10)).1 rfl,
   (spec_C4_empty_stack_noop (Calculator.initState 3 10)).2 rfl⟩

/-- Nine successful additions whose first operands are 1 through 9. -/
def nineAddCalls : List OpCall :=
  [⟨"add", some 1, some 1, 0⟩, ⟨"add", some 2, some 2, 0⟩,
   ⟨"add", some 3, some 3, 0⟩, ⟨"add", some 4, some 4, 0⟩,
   ⟨"add", some 5, some 5, 0⟩, ⟨"add", some 6, some 6, 0⟩,
   ⟨"add", some 7, some 7, 0⟩, ⟨"add", some 8, some 8, 0⟩,
   ⟨"add", some 9, some 9, 0⟩]

set_option maxRecDepth 4000 in
/-- C2: Bounded history with FIFO eviction — once the history is within the
bound, every `perform_operation` call keeps it within the bound, and a
successful call leaves the history a suffix of the old history extended by
the new record (so the oldest entry is the one evicted and the rest are
never reordered); concretely, with `maxHistorySize = 5`, performing nine
operations with operand1 = 1..9 from an empty session leaves the records
with operand1 values `[5, 6, 7, 8, 9]` in order. -/
theorem spec_C2_bounded_history :
    (∀ (s : CalculatorState) (a b : Option ℚ) (now : ℤ),
      s.history.length ≤ s.max_history_size →
        ((Calculator.perform_operation s a b now).2.history.length ≤
            s.max_history_size ∧
         ∀ r, (Calculator.perform_operation s a b now).1 = .ok r →
           ∃ c, (Calculator.perform_operation s a b now).2.history <:+
             s.history ++ [c])) ∧
    (Calculator.runCalls (Calculator.initState 5 1000000) nineAddCalls).history.map
        Calculation.operand1 = [5, 6, 7, 8, 9] := by
  constructor
  · intro s a b now hlen
    rcases perform_operation_cases s a b now with ⟨e, he⟩ | ⟨r, c, hc⟩
    · rw [he]
      refine ⟨hlen, ?_⟩
      intro r hr
      simp at hr
    · rw [hc]
      constructor
      · simp only [Calculator.commit]
        split
        · simp only [List.length_tail, List.length_append, List.length_singleton]
          omega
        · next hgt =>
            simp only [List.length_append, List.length_singleton] at hgt ⊢
            omega
      · intro r2 _
        refine ⟨c, ?_⟩
        simp only [Calculator.commit]
        split
        · exact List.tail_suffix _
        · exact List.suffix_refl _
  · decide

/-- Witness for C2 at an empty session performing one addition. -/
theorem spec_C2_witness :
    (Calculator.perform_operation sampleAddState (some 1) (some 1) 0).2.history.length ≤
      sampleAddState.max_history_size ∧
    ∀ r, (Calculator.perform_operation sampleAddState (some 1) (some 1) 0).1 = .ok r →
      ∃ c, (Calculator.perform_operation sampleAddState (some 1) (some 1) 0).2.history <:+
        sampleAddState.history ++ [c] :=
  spec_C2_bounded_history.1 sampleAddState (some 1) (some 1) 0 (by decide)

/-- The session state after one successful addition from `sampleAddState`. -/
def sampleAfterOp : CalculatorState :=
  (Calculator.perform_operation sampleAddState (some 1) (some 1) 0).2

/-- The session state after undoing that addition. -/
def sampleAfterUndo : CalculatorState := (Calculator.undo sampleAfterOp).2

/-- The session state after a new successful addition following the undo. -/
def sampleAfterNewOp : CalculatorState :=
  (Calculator.perform_operation sampleAfterUndo (some 2) (some 2) 0).2

/-- Counterexample to C5 as stated: after an undo has filled the redo stack,
a new successful operation does clear the redo stack, but the subsequent
`redo()` does not fail with `NothingToRedoError` — it returns the value
`False` normally, with the state untouched (no such error exists on this
path). -/
theorem spec_C5_counterexample :
    sampleAfterUndo.redo_stack ≠ [] ∧
    sampleAfterNewOp.redo_stack = [] ∧
    Calculator.redo sampleAfterNewOp = (false, sampleAfterNewOp) :=
  ⟨by decide, by decide, redo_of_empty _ (by decide)⟩

/-- C5 (amended): every successful `perform_operation` clears the redo stack,
so a subsequent `redo()` returns `False` leaving the state unchanged (rather
than raising `NothingToRedoError`); `undo()` never clears the redo stack (it
pushes exactly one snapshot onto it, or leaves it untouched when there is
nothing to undo) and `redo()` pops exactly one element from it. -/
theorem spec_C5_redo_invalidation (s : CalculatorState) (a b : Option ℚ)
    (now : ℤ) :
    (∀ r, (Calculator.perform_operation s a b now).1 = .ok r →
       ((Calculator.perform_operation s a b now).2.redo_stack = [] ∧
        Calculator.redo (Calculator.perform_operation s a b now).2 =
          (false, (Calculator.perform_operation s a b now).2))) ∧
    ((Calculator.undo s).2.redo_stack =
       if s.undo_stack = [] then s.redo_stack
       else s.redo_stack ++ [CalculatorMemento.mk s.history]) ∧
    ((Calculator.redo s).2.redo_stack = s.redo_stack.dropLast) := by
  refine ⟨?_, ?_, ?_⟩
  · intro r h
    obtain ⟨c, hc⟩ := perform_operation_snd_of_ok s a b now r h
    have hre : (Calculator.perform_operation s a b now).2.redo_stack = [] := by
      rw [hc]
      simp [Calculator.commit]
    exact ⟨hre, redo_of_empty _ hre⟩
  · rcases List.eq_nil_or_concat' s.undo_stack with h | ⟨l, m, h⟩
    · rw [undo_of_empty s h, if_pos h]
    · unfold Calculator.undo
      rw [h, List.getLast?_concat]
      simp
  · rcases List.eq_nil_or_concat' s.redo_stack with h | ⟨l, m, h⟩
    · rw [redo_of_empty s h, h]
      simp
    · unfold Calculator.redo
      rw [h, List.getLast?_concat]

/-- Witness for the amended C5 at one successful addition. -/
theorem spec_C5_witness :
    ((Calculator.perform_operation sampleAddState (some 1) (some 1) 0).2.redo_stack = [] ∧
     Calculator.redo (Calculator.perform_operation sampleAddState (some 1) (some 1) 0).2 =
       (false, (Calculator.perform_operation sampleAddState (some 1) (some 1) 0).2)) ∧
    ((Calculator.undo sampleAddState).2.redo_stack =
       if sampleAddState.undo_stack = [] then sampleAddState.redo_stack
       else sampleAddState.redo_stack ++ [CalculatorMemento.mk sampleAddState.history]) ∧
    ((Calculator.redo sampleAddState).2.redo_stack =
       sampleAddState.redo_stack.dropLast) :=
  ⟨(spec_C5_redo_invalidation sampleAddState (some 1) (some 1) 0).1 (1 + 1) rfl,
   (spec_C5_redo_invalidation sampleAddState (some 1) (some 1) 0).2.1,
   (spec_C5_redo_invalidation sampleAddState (some 1) (some 1) 0).2.2⟩

/-- A session holding one record, one registered observer, a baseline
snapshot on the undo stack and one past notification. -/
def sampleHistoryObserverState : CalculatorState :=
  ⟨[⟨"add", 1, 1, 2, 0⟩], some .addition, some "add", [0],
   [CalculatorMemento.mk []], [], 5, 1000, [(0, ⟨"add", 1, 1, 2, 0⟩)]⟩

/-- Counterexample to C6 as stated: `clear_history` leaves the undo stack
empty — it does not re-capture a fresh empty snapshot as a new baseline —
and the notification trace is unchanged, so the registered observer is not
notified. -/
theorem spec_C6_counterexample :
    (Calculator.clear_history sampleHistoryObserverState).undo_stack = [] ∧
    (Calculator.clear_history sampleHistoryObserverState).undo_stack ≠
      [CalculatorMemento.mk []] ∧
    (Calculator.clear_history sampleHistoryObserverState).notifications =
      sampleHistoryObserverState.notifications :=
  ⟨rfl, by decide, rfl⟩

/-- C6 (amended): `clear_history()` empties the History Store and both the
undo and redo stacks; it pushes no fresh baseline snapshot, keeps the
observer list, and notifies nobody. -/
theorem spec_C6_clear_history (s : CalculatorState) :
    (Calculator.clear_history s).history = [] ∧
    (Calculator.clear_history s).undo_stack = [] ∧
    (Calculator.clear_history s).redo_stack = [] ∧
    (Calculator.clear_history s).observers = s.observers ∧
    (Calculator.clear_history s).notifications = s.notifications ∧
    (Calculator.clear_history s).operation_strategy = s.operation_strategy :=
  ⟨rfl, rfl, rfl, rfl, rfl, rfl⟩

/-- A session with two registered observers (identifiers 0 and 1, attached
in that order) and the add strategy pending. -/
def sampleTwoObserverState : CalculatorState :=
  ⟨[], some .addition, some "add", [0, 1], [], [], 5, 1000, []⟩

/-- C7: Observer registration and fan-out — attaching an already registered
listener is a no-op, registration preserves duplicate-freedom, and every
successful `perform_operation` notifies exactly the registered observers, in
attachment order (one `update` call each); concretely, with observers 0 and
1 attached in that order, one successful operation produces the notification
trace `[0, 1]`. -/
theorem spec_C7_observer_fanout (s : CalculatorState) (o : ℕ) (a b : Option ℚ)
    (now : ℤ) :
    (o ∈ s.observers → Calculator.add_observer s o = s) ∧
    (s.observers.Nodup → (Calculator.add_observer s o).observers.Nodup) ∧
    (∀ r, (Calculator.perform_operation s a b now).1 = .ok r →
       ∃ c, (Calculator.perform_operation s a b now).2.notifications =
         s.notifications ++ s.observers.map (fun ob => (ob, c))) ∧
    ((Calculator.perform_operation sampleTwoObserverState (some 2) (some 3) 0).2.notifications.map
        Prod.fst = [0, 1]) := by
  refine ⟨?_, ?_, ?_, by decide⟩
  · intro h
    unfold Calculator.add_observer
    rw [if_pos h]
  · intro hnd
    unfold Calculator.add_observer
    split
    · exact hnd
    · next hmem => simp [List.nodup_append, hnd, hmem]
  · intro r h
    obtain ⟨c, hc⟩ := perform_operation_snd_of_ok s a b now r h
    refine ⟨c, ?_⟩
    rw [hc]
    simp [Calculator.commit, Calculator.notify_observers]

/-- Witness for C7 at the two-observer session. -/
theorem spec_C7_witness :
    Calculator.add_observer sampleTwoObserverState 0 = sampleTwoObserverState ∧
    (Calculator.add_observer sampleTwoObserverState 0).observers.Nodup ∧
    (∃ c, (Calculator.perform_operation sampleTwoObserverState (some 2) (some 3) 0).2.notifications =
        sampleTwoObserverState.notifications ++
          sampleTwoObserverState.observers.map (fun ob => (ob, c))) :=
  ⟨(spec_C7_observer_fanout sampleTwoObserverState 0 (some 2) (some 3) 0).1 (by decide),
   (spec_C7_observer_fanout sampleTwoObserverState 0 (some 2) (some 3) 0).2.1 (by decide),
   (spec_C7_observer_fanout sampleTwoObserverState 0 (some 2) (some 3) 0).2.2.1 (2 + 3) rfl⟩

/-- Building a `Calculation` propagates the strategy's domain error. -/
theorem make_of_execute_error (name : String) (a b : ℚ) (t : ℤ)
    (k : OperationKind) (e : CalcError)
    (hco : OperationFactory.create_operation name = .ok k)
    (hex : Operation.execute k a b = .error e) :
    Calculation.make name a b t = .error e := by
  unfold Calculation.make
  rw [hco]
  simp [hex]

/-- C8: Serialization round trip — for every `Calculation` that satisfies the
construction contract, deserializing its serialized record reproduces it
exactly: same operation identifier, same operands, same (recomputed) result,
and the same timestamp at the serialized precision. -/
theorem spec_C8_round_trip (name : String) (a b : ℚ) (t : ℤ) (c : Calculation)
    (h : Calculation.make name a b t = .ok c) :
    Calculation.from_dict (Calculation.to_dict c) = .ok c := by
  unfold Calculation.make at h
  split at h
  · simp at h
  · rename_i k hco
    split at h
    · simp at h
    · rename_i r hex
      simp only [Except.ok.injEq] at h
      subst h
      simp only [Calculation.from_dict, Calculation.to_dict, Calculation.make, hco, hex]

/-- Witness for C8 at the record built by `add 2 3`. -/
theorem spec_C8_witness :
    Calculation.make "add" 2 3 0 =
      Except.ok (⟨"add", 2, 3, 2 + 3, 0⟩ : Calculation) ∧
    Calculation.from_dict (Calculation.to_dict (⟨"add", 2, 3, 2 + 3, 0⟩ : Calculation)) =
      Except.ok (⟨"add", 2, 3, 2 + 3, 0⟩ : Calculation) :=
  ⟨rfl, spec_C8_round_trip "add" 2 3 0 ⟨"add", 2, 3, 2 + 3, 0⟩ rfl⟩

/-- C9: CalculationRecord construction contract — every constructed record
stores its inputs and a result that is exactly the deterministic output of
the named operation on those operands; construction fails when the operation
identifier is unregistered, and on the operation-specific domain violations:
divisor 0 for divide, modulus and integer-divide, degree 0 or an even root
of a negative base for root, and a negative exponent for power. -/
theorem spec_C9_record_contract (name : String) (a b : ℚ) (t : ℤ) :
    (∀ c, Calculation.make name a b t = .ok c →
       c.operation_name = name ∧ c.operand1 = a ∧ c.operand2 = b ∧
       ∃ k, OperationFactory.create_operation name = .ok k ∧
            Operation.execute k a b = .ok c.result) ∧
    (∀ e, OperationFactory.create_operation name = .error e →
       Calculation.make name a b t = .error e) ∧
    (b = 0 →
       (∃ e, Calculation.make "divide" a b t = .error e) ∧
       (∃ e, Calculation.make "modulus" a b t = .error e) ∧
       (∃ e, Calculation.make "int_divide" a b t = .error e) ∧
       (∃ e, Calculation.make "root" a b t = .error e)) ∧
    (a < 0 → decMod b 2 = 0 → ∃ e, Calculation.make "root" a b t = .error e) ∧
    (b < 0 → ∃ e, Calculation.make "power" a b t = .error e) := by
  refine ⟨?_, ?_, ?_, ?_, ?_⟩
  · intro c h
    unfold Calculation.make at h
    split at h
    · simp at h
    · rename_i k hco
      split at h
      · simp at h
      · rename_i r hex
        simp only [Except.ok.injEq] at h
        subst h
        exact ⟨rfl, rfl, rfl, k, hco, by rw [hex]⟩
  · intro e he
    unfold Calculation.make
    rw [he]
  · intro hb
    subst hb
    exact ⟨⟨_, make_of_execute_error "divide" a 0 t .division _ rfl rfl⟩,
           ⟨_, make_of_execute_error "modulus" a 0 t .modulus _ rfl rfl⟩,
           ⟨_, make_of_execute_error "int_divide" a 0 t .integerDivision _ rfl rfl⟩,
           ⟨_, make_of_execute_error "root" a 0 t .root _ rfl rfl⟩⟩
  · intro ha hm
    by_cases hb0 : b = 0
    · subst hb0
      exact ⟨_, make_of_execute_error "root" a 0 t .root _ rfl rfl⟩
    · refine ⟨_, make_of_execute_error "root" a b t .root
        (.OperationError "Cannot calculate even root of a negative number") rfl ?_⟩
      simp only [Operation.execute]
      rw [if_neg hb0, if_pos ⟨ha, hm⟩]
  · intro hb
    refine ⟨_, make_of_execute_error "power" a b t .power
      (.OperationError "Negative exponents are not supported") rfl ?_⟩
    simp only [Operation.execute]
    rw [if_pos hb]

/-- Witness for C9: a successful record for `add 2 3` and the failing
constructions for divide/modulus/int-divide/root by 0, an even root of a
negative base, and a negative power exponent. -/
theorem spec_C9_witness :
    ((⟨"add", 2, 3, 2 + 3, 0⟩ : Calculation).operation_name = "add" ∧
     (⟨"add", 2, 3, 2 + 3, 0⟩ : Calculation).operand1 = 2 ∧
     (⟨"add", 2, 3, 2 + 3, 0⟩ : Calculation).operand2 = 3 ∧
     ∃ k, OperationFactory.create_operation "add" = .ok k ∧
          Operation.execute k 2 3 = .ok (⟨"add", 2, 3, 2 + 3, 0⟩ : Calculation).result) ∧
    ((∃ e, Calculation.make "divide" 5 0 0 = .error e) ∧
     (∃ e, Calculation.make "modulus" 5 0 0 = .error e) ∧
     (∃ e, Calculation.make "int_divide" 5 0 0 = .error e) ∧
     (∃ e, Calculation.make "root" 5 0 0 = .error e)) ∧
    (∃ e, Calculation.make "root" (-1) 2 0 = .error e) ∧
    (∃ e, Calculation.make "power" 1 (-1) 0 = .error e) :=
  ⟨(spec_C9_record_contract "add" 2 3 0).1 ⟨"add", 2, 3, 2 + 3, 0⟩ rfl,
   (spec_C9_record_contract "divide" 5 0 0).2.2.1 rfl,
   (spec_C9_record_contract "root" (-1) 2 0).2.2.2.1 (by norm_num)
     (by norm_num [decMod, decFloorDiv, decTrunc]),
   (spec_C9_record_contract "power" 1 (-1) 0).2.2.2.2 (by norm_num)⟩

/-- The history of a commit, written out. -/
theorem commit_history_eq (s : CalculatorState) (c : Calculation) :
    (Calculator.commit s c).history =
      if (s.history ++ [c]).length > s.max_history_size
      then (s.history ++ [c]).tail else s.history ++ [c] := rfl

/-- C10 (implicit): loading history does not enforce the size bound — after
`load_history` of a non-empty file with k records the session history has
exactly those k entries even when k exceeds `max_history_size`, and a single
subsequent successful `perform_operation` removes exactly one oldest entry,
leaving the length at k — so the bound is not re-established by loading or
by one further operation. -/
theorem spec_C10_load_history_unbounded (s : CalculatorState)
    (records : List Calculation) (a b : Option ℚ) (now : ℤ)
    (hne : records ≠ []) :
    (Calculator.load_history s (some records)).history = records ∧
    (∀ r, (Calculator.perform_operation (Calculator.load_history s (some records)) a b now).1 = .ok r →
       records.length > s.max_history_size →
       ∃ c, (Calculator.perform_operation (Calculator.load_history s (some records)) a b now).2.history
              = records.tail ++ [c] ∧
            (Calculator.perform_operation (Calculator.load_history s (some records)) a b now).2.history.length
              = records.length) := by
  have hload : Calculator.load_history s (some records) =
      { s with history := records,
               undo_stack := [CalculatorMemento.mk records],
               redo_stack := [] } := by
    show (if records ≠ [] then
            ({ s with history := records,
                      undo_stack := [CalculatorMemento.mk records],
                      redo_stack := [] } : CalculatorState)
          else { s with history := [], undo_stack := [], redo_stack := [] }) =
        { s with history := records,
                 undo_stack := [CalculatorMemento.mk records],
                 redo_stack := [] }
    rw [if_pos hne]
  refine ⟨by rw [hload], ?_⟩
  intro r h hgt
  obtain ⟨c, hc⟩ := perform_operation_snd_of_ok _ a b now r h
  have htail : (Calculator.perform_operation (Calculator.load_history s (some records)) a b now).2.history
      = records.tail ++ [c] := by
    rw [hc, commit_history_eq, hload]
    simp only
    rw [if_pos (by simp only [List.length_append, List.length_singleton]; omega)]
    cases records with
    | nil => exact absurd rfl hne
    | cons x xs => rfl
  refine ⟨c, htail, ?_⟩
  rw [htail]
  have hpos : 0 < records.length := List.length_pos.mpr hne
  simp only [List.length_append, List.length_tail, List.length_singleton]
  omega

/-- A session with the add strategy pending and a history bound of one. -/
def sampleLoadState : CalculatorState :=
  ⟨[], some .addition, some "add", [], [], [], 1, 1000, []⟩

/-- Two parsed history records, one more than `sampleLoadState` allows. -/
def sampleRecords : List Calculation :=
  [⟨"add", 1, 1, 2, 0⟩, ⟨"add", 2, 2, 4, 0⟩]

/-- Witness for C10: loading two records into a session bounded at one, then
performing one more operation, leaves two entries throughout. -/
theorem spec_C10_witness :
    sampleRecords ≠ [] ∧
    (Calculator.load_history sampleLoadState (some sampleRecords)).history = sampleRecords ∧
    (∃ c, (Calculator.perform_operation (Calculator.load_history sampleLoadState (some sampleRecords)) (some 3) (some 3) 0).2.history
            = sampleRecords.tail ++ [c] ∧
          (Calculator.perform_operation (Calculator.load_history sampleLoadState (some sampleRecords)) (some 3) (some 3) 0).2.history.length
            = sampleRecords.length) :=
  ⟨by decide,
   (spec_C10_load_history_unbounded sampleLoadState sampleRecords (some 3) (some 3) 0 (by decide)).1,
   (spec_C10_load_history_unbounded sampleLoadState sampleRecords (some 3) (some 3) 0 (by decide)).2
     (3 + 3) rfl (by decide)⟩
